import Mathlib

/-!
Verification of the mkv-factory policy-resolution and pipeline-sequencing
engine.  The Python sources under `src/lib/` are shallowly embedded below:
pure configuration records become Lean structures, each external-tool
invocation (`run_command(cmd)`) becomes an `Op` value in an ordered plan,
and functions that can raise `ValueError` return `Except String`.
All embedded definitions carry a comment naming the Python source location
they were translated from.
-/

namespace MkvFactory

/-! ### Python-semantics helpers -/

/-- Python `str(x)` for `x = config.get('dv_profile')`: `str(None) = "None"`,
`str(7) = "7"`. -/
def pyStrOfOptNat : Option Nat → String
  | none => "None"
  | some n => toString n

/-- `sub` occurs as a contiguous run inside `l`. -/
def listContains (sub : List Char) : List Char → Bool
  | [] => sub.isPrefixOf []
  | c :: t => sub.isPrefixOf (c :: t) || listContains sub t

/-- Python `sub in s` substring test on strings. -/
def pyIn (sub s : String) : Bool :=
  listContains sub.data s.data

/-- `os.path.join(d, f)` for the non-degenerate shapes the program uses
(directory path plus file name). -/
def pathJoin (d f : String) : String :=
  if d = "" then f
  else if d.data.getLast? = some '/' then d ++ f
  else d ++ "/" ++ f

/-- `s.endswith(suffix)` on strings (kernel-reducible). -/
def strEndsWith (s suffix : String) : Bool :=
  suffix.data.reverse.isPrefixOf s.data.reverse

/-- Python `str.lower()` (ASCII case folding, as the program applies it to
ASCII policy strings and titles). -/
def pyLower (s : String) : String :=
  ⟨s.data.map Char.toLower⟩

/-- Join strings with a separator, as `sep.join(parts)`. -/
def joinSep (sep : String) : List String → String
  | [] => ""
  | [x] => x
  | x :: xs => x ++ sep ++ joinSep sep xs

/-- Python truthiness of an optional string (`None` and `""` are falsy). -/
def pyFalsyStr : Option String → Bool
  | none => true
  | some s => s = ""

/-- Replace every whitespace character by a space and collapse runs of
whitespace to a single space: Python `re.sub(r'\s+', ' ', s)`. -/
def squeezeWs : List Char → List Char
  | [] => []
  | c :: t =>
    let c' := if c.isWhitespace then ' ' else c
    match squeezeWs t with
    | [] => [c']
    | d :: t' => if c' = ' ' && d = ' ' then d :: t' else c' :: d :: t'

/-- Python `str.strip()` (whitespace from both ends). -/
def pyStrip (s : String) : String :=
  ⟨(s.data.dropWhile Char.isWhitespace).reverse.dropWhile Char.isWhitespace |>.reverse⟩

/-- Python `str.rstrip(chars)`. -/
def pyRstrip (s : String) (chars : List Char) : String :=
  ⟨(s.data.reverse.dropWhile (chars.contains ·)).reverse⟩

/-- `string.punctuation` from the Python standard library. -/
def pyPunctuation : List Char :=
  "!\"#$%&'()*+,-./:;<=>?@[\\]^_`~".data ++ ['\x7b', '|', '\x7d']

/-- `os.path.basename`: the part after the last slash. -/
def pyBasename (s : String) : String :=
  ⟨(s.data.reverse.takeWhile (· ≠ '/')).reverse⟩

/-- `os.path.splitext` on a bare file name: split at the last dot, except
when the only dot is the leading character. -/
def pySplitext (s : String) : String × String :=
  let cs := s.data
  let revIdx := cs.reverse.indexOf '.'
  if revIdx < cs.length then
    let i := cs.length - 1 - revIdx
    if i = 0 then (s, "")
    else (⟨cs.take i⟩, ⟨cs.drop i⟩)
  else (s, "")

/-! ### Filename utilities (src/lib/utils.py) -/

/-- Characters kept by the sanitizer's character-class filter
`re.sub(r'[^\w\s\._\-\[\]\(\)]', '', s)` (ASCII reading of `\w`). -/
def sanitizeKeepChar (c : Char) : Bool :=
  (c.isAlphanum && c.toNat < 128) || c = '_' || c.isWhitespace ||
    c = '.' || c = '-' || c = '[' || c = ']' || c = '(' || c = ')'

/-- `sanitize_filename` (utils.py lines 133-163).  The `unidecode`
transliteration step is environment-dependent; we embed the documented
fallback path (non-ASCII characters are removed), then the character-class
filter, then whitespace collapsing and stripping. -/
def sanitize_filename (filename : String) : String :=
  let ascii := filename.data.filter (fun c => c.toNat < 128)
  let kept := ascii.filter sanitizeKeepChar
  pyStrip ⟨squeezeWs kept⟩

/-- Body of `re.sub(r'\[.*?\]', '', s)`: each `[` is deleted together
with everything up to the first following `]`; a `[` with no later `]`
is kept verbatim (utils.py line 477).  Single pass with a buffer of the
pending candidate match (`none` = outside a bracket). -/
def stripTagsGo : Option (List Char) → List Char → List Char
  | none, [] => []
  | some buf, [] => buf
  | none, c :: t => if c = '[' then stripTagsGo (some [c]) t else c :: stripTagsGo none t
  | some buf, c :: t =>
    if c = ']' then stripTagsGo none t else stripTagsGo (some (buf ++ [c])) t

def stripBracketTags (l : List Char) : List Char :=
  stripTagsGo none l

/-- Leftmost match of `(19|20)\d{2}` in a character list: returns the
matched four characters and the split around them. -/
def findYear : List Char → Option (List Char × List Char × List Char)
  | [] => none
  | c :: t =>
    match c :: t with
    | c0 :: c1 :: c2 :: c3 :: rest =>
      if ((c0 = '1' && c1 = '9') || (c0 = '2' && c1 = '0')) && c2.isDigit && c3.isDigit then
        some ([], [c0, c1, c2, c3], rest)
      else
        match findYear t with
        | some (pre, m, post) => some (c :: pre, m, post)
        | none => none
    | _ =>
      match findYear t with
      | some (pre, m, post) => some (c :: pre, m, post)
      | none => none

/-- `re.sub(r'[._]', ' ', s)`. -/
def dotsToSpaces (s : String) : String :=
  ⟨s.data.map (fun c => if c = '.' || c = '_' then ' ' else c)⟩

/-- Final character blacklist `re.sub(r'[<>:"/\\|?*]', '', s)`. -/
def finalNameClean (s : String) : String :=
  ⟨(squeezeWs s.data).filter (fun c =>
    !(c = '<' || c = '>' || c = ':' || c = '"' || c = '/' || c = '\\' ||
      c = '|' || c = '?' || c = '*'))⟩

/-! ### Data model -/

/-- One entry of a stream's `side_data_list`. -/
structure SideDataItem where
  side_data_type : String
  dv_profile : Option Nat := none
  deriving Repr, DecidableEq

/-- One ffprobe stream dictionary, restricted to the fields the program
reads (`tags` is flattened to `language`/`title`/`tags_comment`).
`mastering_display` / `cll` stand for the already-formatted HDR10 strings
produced by the float-parsing code (collaborator-level detail kept
abstract); `none` when the stream carries no such metadata.  The same
dictionaries flow from the probe into `config['video_stream']` /
`config['audio_tracks']` / `config['subtitle_tracks']`. -/
structure StreamRec where
  codec_type : String := ""
  index : Nat := 0
  codec_name : String := ""
  language : Option String := none
  title : Option String := none
  channels : Option Nat := none
  side_data : List SideDataItem := []
  tags_comment : Option String := none
  mastering_display : Option String := none
  cll : Option String := none
  r_frame_rate : Option String := none
  avg_frame_rate : Option String := none
  width : Option Nat := none
  height : Option Nat := none
  deriving Repr, DecidableEq

/-- An externally supplied audio/subtitle file
(`config['external_audio_files']` entries). -/
structure ExtFile where
  path : String
  lang : String
  title : String
  deriving Repr, DecidableEq

/-- Encoder parameters (`profile_data[encoder]['encoder_params']`). -/
structure EncoderParams where
  preset : String := ""
  cq : String := ""
  qp : String := ""
  quality : String := ""
  deriving Repr, DecidableEq

/-- The run configuration dictionary.  Fields are exactly the keys read by
`run_full_conversion` (processing.py) and the strategy classes
(processing_strategies.py).  `passthrough_convert_dv_to_p8` is `Option`
because batch configs never set that key (`config.get(...)` yields `None`).
Policies are kept as strings, as in the source. -/
structure Config where
  audio_tracks : List StreamRec := []
  subtitle_tracks : List StreamRec := []
  external_audio_files : List ExtFile := []
  external_subtitle_files : List ExtFile := []
  has_dv : Bool := false
  has_hdr10plus : Bool := false
  dv_profile : Option Nat := none
  final_filename : String := ""
  video_stream : Option StreamRec := none
  default_audio_index : Int := 0
  default_subtitle_index : Int := -1
  encoder : String := "nvenc"
  encoder_params : EncoderParams := {}
  auto_cleanup_temp_video : Bool := true
  final_cleanup_policy : String := "on_success"
  video_policy : String := "encode"
  dv_policy : String := "keep"
  hdr10plus_policy : String := "keep"
  passthrough_convert_dv_to_p8 : Option Bool := none
  hdr10_master_display : Option String := none
  hdr10_cll_fall : Option String := none
  deriving Repr, DecidableEq

/-- `generate_plex_friendly_name` (utils.py lines 465-575). -/
def generate_plex_friendly_name (source_filename : String) (config : Config) : String :=
  let base_name_with_ext := pyBasename source_filename
  let base_name := (pySplitext base_name_with_ext).1
  let clean_base := pyStrip ⟨stripBracketTags base_name.data⟩
  let (title, year_str) :=
    match findYear clean_base.data with
    | some (pre, m, _) =>
      let year_str := "(" ++ (⟨m⟩ : String) ++ ")"
      let title_raw : String := ⟨pre⟩
      let title := pyRstrip title_raw (pyPunctuation ++ [' ', '\t', '\n', '\r'])
      if title = "" then
        let title_raw := (pySplitext base_name).1
        (pyStrip (dotsToSpaces title_raw), year_str)
      else (title, year_str)
    | none => (clean_base, "")
  let title := pyStrip (dotsToSpaces title)
  let title : String := ⟨squeezeWs title.data⟩
  -- quality tags (utils.py lines 511-556)
  let resTags : List String :=
    match config.video_stream.bind (·.width), config.video_stream.bind (·.height) with
    | some w, some h =>
      if w ≥ 3800 || h ≥ 2100 then ["2160p"]
      else if w ≥ 1900 || h ≥ 1000 then ["1080p"]
      else if w ≥ 1200 || h ≥ 700 then ["720p"]
      else []
    | _, _ => []
  let codecTags : List String :=
    if config.video_policy = "passthrough" then
      let source_codec := (config.video_stream.map (·.codec_name)).getD "COPY"
      (if pyIn "hevc" source_codec || pyIn "h265" source_codec then ["HEVC"]
       else if pyIn "avc" source_codec || pyIn "h264" source_codec then ["H.264"]
       else if pyIn "vp9" source_codec then ["VP9"]
       else []) ++ ["REMUX"]
    else
      ["HEVC"] ++
      (if config.encoder = "nvenc" then ["CQ" ++ config.encoder_params.cq]
       else if config.encoder = "amf" then ["QP" ++ config.encoder_params.qp]
       else [])
  let dvTags : List String :=
    if config.has_dv && config.dv_policy ≠ "drop" then ["DV"] else []
  let hdrTags : List String :=
    if config.has_hdr10plus && config.hdr10plus_policy ≠ "drop" then ["HDR10plus"] else []
  let quality_tags := resTags ++ codecTags ++ dvTags ++ hdrTags
  let quality_str := "[" ++ joinSep " " quality_tags ++ "]"
  let final_name_base :=
    if year_str ≠ "" && pyIn year_str title then title else title ++ " " ++ year_str
  let final_name_base := pyStrip ⟨squeezeWs final_name_base.data⟩
  let final_name := pyStrip (final_name_base ++ " " ++ quality_str ++ ".mkv")
  finalNameClean final_name

/-- `get_unique_filename` (utils.py lines 396-414).  `ex` models
`os.path.exists`; the unbounded `while` loop is given fuel (the loop can
only spin while ever-new candidate paths exist on disk). -/
def uniqueLoop (ex : String → Bool) (output_dir base ext : String) :
    Nat → Nat → String
  | 0, k => base ++ " (" ++ toString k ++ ")" ++ ext
  | fuel + 1, k =>
    let cand := base ++ " (" ++ toString k ++ ")" ++ ext
    if ex (pathJoin output_dir cand) then uniqueLoop ex output_dir base ext fuel (k + 1)
    else cand

def get_unique_filename (ex : String → Bool) (output_dir desired_filename : String) : String :=
  let (base, ext) := pySplitext desired_filename
  if ex (pathJoin output_dir desired_filename) then
    uniqueLoop ex output_dir base ext 1000000 1
  else desired_filename

/-- `resolve_final_filename` (utils.py lines 416-448). -/
def resolve_final_filename (ex : String → Bool) (output_dir desired_filename : String) : String :=
  let sane := sanitize_filename desired_filename
  let sane := if !(strEndsWith (pyLower sane) ".mkv") then sane ++ ".mkv" else sane
  get_unique_filename ex output_dir sane

/-! ### Operations

Each constructor is one `run_command(cmd)` call; the fields are the file
arguments and distinguishing parameters of the exact command built in the
source.  `extraFlags` fields carry non-path ffmpeg flags. -/

inductive Op where
  /-- `mkvextract tracks SRC IDX:DST` -/
  | mkvextractTrack (source : String) (trackIdx : Nat) (dest : String)
  /-- `ffmpeg [-framerate F] -i IN <encoder flags> OUT` (raw HEVC input) -/
  | ffmpegEncodeRaw (input : String) (framerate : Option String)
      (encFlags : List String) (output : String)
  /-- `ffmpeg -i SRC -map 0:IDX ... <flags> OUT` (container input) -/
  | ffmpegEncodeSource (source : String) (mapIdx : Nat)
      (extraFlags : List String) (output : String)
  /-- `dovi_tool -m MODE convert -i IN -o OUT` -/
  | doviConvert (mode : String) (input output : String)
  /-- `dovi_tool remove -i IN -o OUT` -/
  | doviRemove (input output : String)
  /-- `dovi_tool extract-rpu -i IN -o OUT` -/
  | doviExtractRpu (input output : String)
  /-- `dovi_tool editor -i IN -j JSON -o OUT` -/
  | doviEditor (input json output : String)
  /-- `dovi_tool inject-rpu -i IN -r RPU -o OUT` -/
  | doviInjectRpu (input rpu output : String)
  /-- `hdr10plus_tool extract -i IN -o OUT` -/
  | hdr10plusExtract (input output : String)
  /-- `hdr10plus_tool inject -i IN -j JSON -o OUT` -/
  | hdr10plusInject (input json output : String)
  /-- `hdr10plus_tool remove -i IN -o OUT` -/
  | hdr10plusRemove (input output : String)
  /-- `mkvmerge -o OUT ... VIDEOIN ... [--global-tags XML] AUDIO* SUB*` -/
  | mkvmergeMux (output videoInput mapStr : String) (passthroughMode : Bool)
      (globalTags : Option String) (audioFiles subFiles : List String)
  deriving Repr, DecidableEq

namespace Op

/-- All file paths appearing in the command. -/
def files : Op → List String
  | mkvextractTrack src _ dst => [src, dst]
  | ffmpegEncodeRaw i _ _ o => [i, o]
  | ffmpegEncodeSource s _ _ o => [s, o]
  | doviConvert _ i o => [i, o]
  | doviRemove i o => [i, o]
  | doviExtractRpu i o => [i, o]
  | doviEditor i j o => [i, j, o]
  | doviInjectRpu i r o => [i, r, o]
  | hdr10plusExtract i o => [i, o]
  | hdr10plusInject i j o => [i, j, o]
  | hdr10plusRemove i o => [i, o]
  | mkvmergeMux o v _ _ g a s => [o, v] ++ (match g with | some p => [p] | none => []) ++ a ++ s

def isDoviEditor : Op → Bool
  | doviEditor _ _ _ => true
  | _ => false

def isDoviInjectRpu : Op → Bool
  | doviInjectRpu _ _ _ => true
  | _ => false

def isDoviExtractRpu : Op → Bool
  | doviExtractRpu _ _ => true
  | _ => false

def isDoviConvert : Op → Bool
  | doviConvert _ _ _ => true
  | _ => false

def isEncode : Op → Bool
  | ffmpegEncodeRaw _ _ _ _ => true
  | ffmpegEncodeSource _ _ _ _ => true
  | _ => false

def isHdr10plus : Op → Bool
  | hdr10plusExtract _ _ => true
  | hdr10plusInject _ _ _ => true
  | hdr10plusRemove _ _ => true
  | _ => false

def isDoviRemove : Op → Bool
  | doviRemove _ _ => true
  | _ => false

def isHdr10plusRemove : Op → Bool
  | hdr10plusRemove _ _ => true
  | _ => false

def isHdr10plusExtract : Op → Bool
  | hdr10plusExtract _ _ => true
  | _ => false

def isHdr10plusInject : Op → Bool
  | hdr10plusInject _ _ _ => true
  | _ => false

def isMux : Op → Bool
  | mkvmergeMux _ _ _ _ _ _ _ => true
  | _ => false

end Op

/-- Encoder flag list shared by all ffmpeg invocations
(processing.py lines 439-444, processing_strategies.py lines 219-222). -/
def encoderFlags (encoder : String) (p : EncoderParams) : List String :=
  if encoder = "nvenc" then
    ["-c:v", "hevc_nvenc", "-preset", p.preset, "-cq", p.cq, "-pix_fmt", "p010le"]
  else if encoder = "amf" then
    ["-c:v", "hevc_amf", "-rc", "cqp", "-qp_p", p.qp, "-qp_i", p.qp,
     "-qp_b", p.qp, "-quality", p.quality, "-pix_fmt", "p010le"]
  else []

/-- FPS selection for raw-HEVC ffmpeg input (processing.py lines 423-435,
processing_strategies.py lines 208-214): `r_frame_rate`, falling back to
`avg_frame_rate` when missing/empty/`0/0`; dropped entirely when the
fallback is also unusable. -/
def pickFramerate (vs : StreamRec) : Option String :=
  let fps := vs.r_frame_rate
  let fps := if pyFalsyStr fps || fps = some "0/0" then vs.avg_frame_rate else fps
  if !pyFalsyStr fps && fps ≠ some "0/0" then fps else none

/-! ### Probe (src/lib/analysis.py) -/

/-- The dictionary literal built at analysis.py lines 33-41.  These seven
fields are the only keys `analizuj_plik` ever writes into its result. -/
structure ProbeStreams where
  video : List StreamRec := []
  audio : List StreamRec := []
  subtitle : List StreamRec := []
  has_dv : Bool := false
  dv_profile : Option Nat := none
  hdr10_master_display : Option String := none
  hdr10_cll_fall : Option String := none
  deriving Repr, DecidableEq

/-- Values stored in the probe dictionary. -/
inductive PyVal where
  | vBool (b : Bool)
  | vStreams (l : List StreamRec)
  | vOptNat (n : Option Nat)
  | vOptStr (s : Option String)
  deriving Repr, DecidableEq

/-- Python `streams.get(key)` on the probe result: exactly the seven keys
of the dictionary literal are present; every other key yields `None`. -/
def ProbeStreams.get (ps : ProbeStreams) (key : String) : Option PyVal :=
  if key = "video" then some (.vStreams ps.video)
  else if key = "audio" then some (.vStreams ps.audio)
  else if key = "subtitle" then some (.vStreams ps.subtitle)
  else if key = "has_dv" then some (.vBool ps.has_dv)
  else if key = "dv_profile" then some (.vOptNat ps.dv_profile)
  else if key = "hdr10_master_display" then some (.vOptStr ps.hdr10_master_display)
  else if key = "hdr10_cll_fall" then some (.vOptStr ps.hdr10_cll_fall)
  else none

/-- `streams.get(key, False)` coerced to a Bool, as used by
`configure_automated_run` for `has_dv` / `has_hdr10plus`. -/
def ProbeStreams.getBoolD (ps : ProbeStreams) (key : String) : Bool :=
  match ps.get key with
  | some (.vBool b) => b
  | _ => false

/-- DV detection from the first video stream's side data
(analysis.py lines 74-81): each `DOVI configuration record` item sets
`has_dv` and overwrites `dv_profile`. -/
def scanSideData (items : List SideDataItem) : Bool × Option Nat :=
  items.foldl
    (fun acc item =>
      if item.side_data_type = "DOVI configuration record" then
        (true, item.dv_profile)
      else acc)
    (false, none)

/-- The per-stream classification loop of `analizuj_plik`
(analysis.py lines 62-144), folded over the probed stream list.  The
second probe pass (frame-level HDR10 fallback, lines 153-210) is supplied
as `frameMd` / `frameCll`. -/
def analizuj_plik (probed : List StreamRec)
    (frameMd frameCll : Option String) : ProbeStreams :=
  let step := fun (ps : ProbeStreams) (stream : StreamRec) =>
    if stream.codec_type = "video" then
      if ps.video = [] then
        let (dv, prof) := scanSideData stream.side_data
        let ps := { ps with
          video := ps.video ++ [stream]
          has_dv := dv
          dv_profile := prof
          hdr10_master_display := stream.mastering_display
          hdr10_cll_fall := stream.cll }
        -- comment-tag fallback (lines 120-124)
        if !ps.has_dv && pyIn "Dolby Vision" (stream.tags_comment.getD "") then
          { ps with has_dv := true }
        else ps
      else ps  -- secondary video streams are only warned about and ignored
    else if stream.codec_type = "audio" then
      { ps with audio := ps.audio ++ [stream] }
    else if stream.codec_type = "subtitle" then
      { ps with subtitle := ps.subtitle ++ [stream] }
    else ps
  let ps := probed.foldl step {}
  -- frame-level fallback only fills fields that are still None
  let ps :=
    if ps.video ≠ [] && (ps.hdr10_master_display = none || ps.hdr10_cll_fall = none) then
      { ps with
        hdr10_master_display :=
          if ps.hdr10_master_display = none then frameMd else ps.hdr10_master_display
        hdr10_cll_fall :=
          if ps.hdr10_cll_fall = none then frameCll else ps.hdr10_cll_fall }
    else ps
  ps

/-! ### Automated configuration (src/lib/config_automated.py) -/

/-- `policy['languages']`: the profile value is either the string `"all"`
or a list; any other value hits the error branch. -/
inductive PyLangs where
  | str (s : String)
  | list (l : List String)
  deriving Repr, DecidableEq

/-- An `audio_selection` / `subtitle_selection` block of the profile. -/
structure SelectionPolicy where
  preferred_codecs : List String := []
  exclude_titles_containing : List String := []
  policy : String := "best_per_language"
  default_track_language : Option String := none
  languages : PyLangs := .list []
  default_mode : String := "none"
  deriving Repr, DecidableEq

/-- The profile fields consumed by `configure_automated_run`.
`encoder_params` stands for `profile_data[encoder_type]['encoder_params']`
(already selected for the active encoder). -/
structure ProfileData where
  video_policy : String := "encode"
  dv_policy : String := "keep"
  hdr10plus_policy : String := "keep"
  encoder_params : EncoderParams := {}
  auto_cleanup_temp_video : Bool := true
  final_cleanup : String := "on_success"
  audio_selection : Option SelectionPolicy := none
  subtitle_selection : Option SelectionPolicy := none
  deriving Repr

/-- First index of `x` in `l`. -/
def firstIdx (x : String) : List String → Option Nat
  | [] => none
  | y :: t => if y = x then some 0 else (firstIdx x t).map (· + 1)

/-- Codec score `{codec: len(prefs) - i}.get(codec, 1)`
(config_automated.py lines 46, 127-128); a duplicated codec keeps its last
index, as in a Python dict comprehension. -/
def codecScore (prefs : List String) (codec : String) : Int :=
  match firstIdx codec prefs.reverse with
  | some r => (r : Int) + 1
  | none => 1

/-- Ascending insertion into a sorted list (code-point order, as Python
`sorted` on strings). -/
def insertSorted (x : String) : List String → List String
  | [] => [x]
  | y :: t => if !(y < x) then x :: y :: t else y :: insertSorted x t

def sortStrings (l : List String) : List String :=
  l.foldr insertSorted []

/-- `get_unique_languages` (utils.py lines 451-463): unique language codes
sorted ascending with `und` last. -/
def get_unique_languages (stream_list : List StreamRec) : List String :=
  let langs := stream_list.map (fun s => s.language.getD "und")
  let uniq := langs.foldl (fun acc l => if acc.contains l then acc else acc ++ [l]) []
  sortStrings (uniq.filter (· ≠ "und")) ++ (if uniq.contains "und" then ["und"] else [])

/-- Title-exclusion check (config_automated.py lines 116-124). -/
def isExcluded (exclusions : List String) (stream : StreamRec) : Bool :=
  let title := pyLower (stream.title.getD "")
  exclusions.any (fun e => pyIn (pyLower e) title)

/-- Pick the best-scoring non-excluded stream (strictly-greater updates,
so the first stream of a maximal score wins; initial best score is -1). -/
def bestForLang (prefs exclusions : List String) (streams : List StreamRec) :
    Option StreamRec :=
  (streams.foldl
    (fun (acc : Option StreamRec × Int) stream =>
      if isExcluded exclusions stream then acc
      else
        let score := codecScore prefs stream.codec_name
        if score > acc.2 then (some stream, score) else acc)
    (none, -1)).1

/-- `find_best_tracks` (config_automated.py lines 31-145). -/
def find_best_tracks (available_streams : List StreamRec) (policy : SelectionPolicy) :
    List StreamRec × List Nat :=
  let default_lang := policy.default_track_language
  if policy.policy = "all" then
    let selected := available_streams
    let defaults :=
      match default_lang with
      | none => []
      | some dl =>
        if dl = "" then []  -- Python falsiness of ""
        else
          match firstIdx dl (selected.map (fun s => s.language.getD "und")) with
          | some i => [i]
          | none => []
    (selected, defaults)
  else if policy.policy = "best_per_language" then
    let available_langs := get_unique_languages available_streams
    let languages_to_process :=
      match policy.languages with
      | .str s => if s = "all" then available_langs else []
      | .list l => l.filter (available_langs.contains ·)
    languages_to_process.foldl
      (fun (acc : List StreamRec × List Nat) lang =>
        let streams_for_lang :=
          available_streams.filter (fun s => s.language.getD "und" = lang)
        match bestForLang policy.preferred_codecs policy.exclude_titles_containing
            streams_for_lang with
        | some best =>
          let selected := acc.1 ++ [best]
          if default_lang = some lang then
            (selected, acc.2 ++ [selected.length - 1])
          else (selected, acc.2)
        | none => acc)
      ([], [])
  else ([], [])

/-- `configure_automated_run` (config_automated.py lines 147-262).
`ex` models `os.path.exists` for the uniqueness check of the generated
filename.  Indexing `streams['video'][0]` on an empty list raises. -/
def configure_automated_run (streams : ProbeStreams) (source_file output_dir : String)
    (profile_data : ProfileData) (encoder_type : String) (ex : String → Bool) :
    Except String Config :=
  match streams.video with
  | [] => .error "IndexError: streams['video'][0]"
  | v :: _ =>
  let cfg : Config := {
    has_dv := streams.getBoolD "has_dv"
    has_hdr10plus := streams.getBoolD "has_hdr10plus"
    dv_profile := match streams.get "dv_profile" with
      | some (.vOptNat n) => n
      | _ => none
    video_stream := some v
    encoder := encoder_type
    video_policy := profile_data.video_policy }
  -- 1a. DV policy with the already-P8 normalization (lines 189-198)
  let dv_profile_str := pyStrOfOptNat cfg.dv_profile
  let cfg := { cfg with
    dv_policy :=
      if profile_data.dv_policy = "convert7_to_8" && dv_profile_str = "8" then "keep"
      else profile_data.dv_policy
    hdr10plus_policy := profile_data.hdr10plus_policy }
  -- 2. encoder settings, cleared in passthrough mode (lines 205-213)
  let cfg := { cfg with
    encoder_params :=
      if cfg.video_policy = "encode" then profile_data.encoder_params else {} }
  -- 3. cleanup settings
  let cfg := { cfg with
    auto_cleanup_temp_video := profile_data.auto_cleanup_temp_video
    final_cleanup_policy := profile_data.final_cleanup }
  -- 4. audio selection
  let cfg :=
    match profile_data.audio_selection with
    | some pol =>
      let (selected, defaults) := find_best_tracks streams.audio pol
      { cfg with
        audio_tracks := selected
        default_audio_index :=
          match defaults with
          | d :: _ => (d : Int)
          | [] => if selected ≠ [] then 0 else cfg.default_audio_index }
    | none => cfg
  -- 5. subtitle selection
  let cfg :=
    match profile_data.subtitle_selection with
    | some pol =>
      let (selected, defaults) := find_best_tracks streams.subtitle pol
      { cfg with
        subtitle_tracks := selected
        default_subtitle_index :=
          match defaults with
          | d :: _ => (d : Int)
          | [] => if pol.default_mode = "first" && selected ≠ [] then 0 else -1 }
    | none => cfg
  -- 6. filename (computed from the *requested* policies, before any run)
  let generated_name := generate_plex_friendly_name source_file cfg
  .ok { cfg with final_filename := resolve_final_filename ex output_dir generated_name }

/-! ### The conversion run (src/lib/processing.py) -/

/-- The Profile 5 sanity check inlined in `run_full_conversion`
(processing.py lines 241-290).  Returns the (possibly overridden) config
and the `override_needed` flag.  The check reads only
`video_policy` and `passthrough_convert_dv_to_p8`; it never consults or
modifies `dv_policy`. -/
def profile5SanityCheck (config : Config) : Config × Bool :=
  let dv_profile_str := pyStrOfOptNat config.dv_profile
  if dv_profile_str = "5" then
    let override_needed :=
      config.video_policy = "encode" || config.passthrough_convert_dv_to_p8 = some true
    if override_needed then
      ({ config with
          video_policy := "passthrough"
          passthrough_convert_dv_to_p8 := some false }, true)
    else (config, false)
  else (config, false)

/-- Result of `run_full_conversion`: the ordered external-tool plan
executed under the no-failure run, plus the observable decision state. -/
structure RunOutput where
  skipped : Bool := false
  ops : List Op := []
  cfgResolved : Config := {}
  overrideNeeded : Bool := false
  useHdrTagsXml : Bool := false
  hdrTagsXmlPath : Option String := none
  deriving Repr, DecidableEq

/-- Temp-audio path of `run_full_conversion` Step 1 (processing.py
lines 191-198). -/
def audioTempPath (output_dir file_basename : String) (s : StreamRec) : String :=
  pathJoin output_dir
    (file_basename ++ "_temp_audio_" ++ s.language.getD "und" ++ "_" ++
      toString s.index ++ ".mka")

/-- Temp-subtitle path of `run_full_conversion` Step 2 (processing.py
lines 206-217). -/
def subTempPath (output_dir file_basename : String) (s : StreamRec) : String :=
  let ext := if s.codec_name = "hdmv_pgs_subtitle" then "sup"
             else if s.codec_name = "subrip" then "srt"
             else "mks"
  pathJoin output_dir
    (file_basename ++ "_temp_sub_" ++ s.language.getD "und" ++ "_" ++
      toString s.index ++ "." ++ ext)

/-- The video-path section of `run_full_conversion` (processing.py
lines 292-566), run on the *post-sanity-check* config.  Yields the video
operations plus `(video_input_for_mux, map_str_for_mux,
use_hdr_tags_xml)`. -/
def videoPathPlan (source_file output_dir file_basename : String) (config : Config) :
    Except String (List Op × String × String × Bool) :=
  if config.video_policy = "passthrough" then
    let dv_profile_str := pyStrOfOptNat config.dv_profile
    let should_convert_dv := config.passthrough_convert_dv_to_p8.getD false
    let conversion_mode :=
      if should_convert_dv && dv_profile_str = "7" then some "2"
      else if should_convert_dv && dv_profile_str = "5" then some "3"
      else none
    match conversion_mode with
    | some m =>
      -- hybrid passthrough path (lines 309-344)
      (match config.video_stream with
       | none => .error "Missing video_stream configuration for hybrid passthrough."
       | some vs =>
        let temp_video_raw :=
          pathJoin output_dir (file_basename ++ "_temp_video_raw.hevc")
        let temp_video_final_dv :=
          pathJoin output_dir (file_basename ++ "_temp_video_final_dv.hevc")
        .ok ([Op.mkvextractTrack source_file vs.index temp_video_raw,
              Op.doviConvert m temp_video_raw temp_video_final_dv],
             temp_video_final_dv, "0", false))
    | none =>
      -- pure passthrough (remux) path (lines 346-364)
      (match config.video_stream with
       | none => .error "Missing video_stream configuration for passthrough."
       | some vs =>
        .ok (([] : List Op), source_file, toString vs.index, false))
  else
    -- encode mode (lines 367-566)
    match config.video_stream with
    | none => .error "Missing video_stream configuration for encode."
    | some vs =>
    let dv_profile_str := pyStrOfOptNat config.dv_profile
    if dv_profile_str = "7" || dv_profile_str = "8" then
      -- unified Profile 7 / Profile 8 encode path (lines 385-510)
      if !pyIn "hevc" vs.codec_name then
        .error ("Dolby Vision Profile " ++ dv_profile_str ++
          " detected, but the video codec is not HEVC. Cannot proceed.")
      else
        let temp_video_raw :=
          pathJoin output_dir (file_basename ++ "_temp_video_raw.hevc")
        let temp_rpu_original :=
          pathJoin output_dir (file_basename ++ "_temp_RPU_original.bin")
        let temp_video_converted_hevc :=
          pathJoin output_dir (file_basename ++ "_temp_video_converted.hevc")
        let temp_video_final_dv :=
          pathJoin output_dir (file_basename ++ "_temp_video_final_dv.hevc")
        let temp_editor_json :=
          pathJoin output_dir (file_basename ++ "_temp_editor.json")
        let temp_rpu_converted_p8 :=
          pathJoin output_dir (file_basename ++ "_temp_RPU_P8_converted.bin")
        let rpu_to_inject :=
          if dv_profile_str = "7" then temp_rpu_converted_p8 else temp_rpu_original
        .ok ([Op.mkvextractTrack source_file vs.index temp_video_raw,
              Op.doviExtractRpu temp_video_raw temp_rpu_original,
              Op.ffmpegEncodeRaw temp_video_raw (pickFramerate vs)
                (encoderFlags config.encoder config.encoder_params)
                temp_video_converted_hevc] ++
             (if dv_profile_str = "7" then
               [Op.doviEditor temp_rpu_original temp_editor_json temp_rpu_converted_p8]
              else []) ++
             [Op.doviInjectRpu temp_video_converted_hevc rpu_to_inject
                temp_video_final_dv],
             temp_video_final_dv, "0", true)
    else
      -- fallback path: strip all DV, keep static HDR10 (lines 516-566)
      let temp_video_converted_mkv :=
        pathJoin output_dir (file_basename ++ "_temp_video_converted.mkv")
      let extraFlags :=
        ["-an", "-sn"] ++
        (if pyIn "hevc" vs.codec_name || pyIn "h265" vs.codec_name then
          ["-bsf:v", "hevc_metadata=remove_dv_rpu=1"]
         else []) ++
        encoderFlags config.encoder config.encoder_params ++
        (match config.hdr10_master_display with
         | some s => ["-metadata", "mastering-display=" ++ s]
         | none => []) ++
        (match config.hdr10_cll_fall with
         | some s => ["-metadata", "max-cll=" ++ s]
         | none => [])
      .ok ([Op.ffmpegEncodeSource source_file vs.index extraFlags
             temp_video_converted_mkv],
           temp_video_converted_mkv, "0:0", true)

/-- `run_full_conversion` (processing.py lines 151-643), as the ordered
sequence of `run_command` invocations it issues when no external tool
fails.  `outputExists` models `os.path.exists(final_file_path)`;
`hdrXmlParseOk` models success of the HDR10-metadata regex parsing and
XML write inside `create_hdr_tags_xml` (the XML is only attempted when at
least one HDR10 string is present, lines 58-60). -/
def run_full_conversion (source_file output_dir : String) (config : Config)
    (file_basename : String) (outputExists : Bool) (hdrXmlParseOk : Bool) :
    Except String RunOutput :=
  let file_basename := sanitize_filename file_basename
  let final_file_path := pathJoin output_dir config.final_filename
  -- existing-output skip (lines 179-182)
  if outputExists then
    .ok { skipped := true, ops := [], cfgResolved := config }
  else
    -- Step 1: extract internal audio tracks (lines 186-198)
    let audioOps := config.audio_tracks.map (fun s =>
      Op.mkvextractTrack source_file s.index (audioTempPath output_dir file_basename s))
    -- Step 2: extract internal subtitle tracks (lines 201-217)
    let subOps := config.subtitle_tracks.map (fun s =>
      Op.mkvextractTrack source_file s.index (subTempPath output_dir file_basename s))
    -- Step 3: HDR10 tag XML, generated from the *requested* policy (lines 220-239)
    let hdrTagsXmlPath :=
      if config.video_policy ≠ "passthrough" then
        if (config.hdr10_master_display ≠ none || config.hdr10_cll_fall ≠ none)
            && hdrXmlParseOk then
          some (pathJoin output_dir (file_basename ++ "_hdr_tags.xml"))
        else none
      else none
    -- Profile 5 sanity check (lines 241-290)
    let checked := profile5SanityCheck config
    let config := checked.1
    let override_needed := checked.2
    -- video path (lines 292-566)
    match videoPathPlan source_file output_dir file_basename config with
    | .error e => .error e
    | .ok (videoOps, video_input_for_mux, map_str_for_mux, use_hdr_tags_xml) =>
      -- final muxing (lines 568-630)
      let muxOp := Op.mkvmergeMux final_file_path video_input_for_mux map_str_for_mux
        (config.video_policy = "passthrough")
        (if use_hdr_tags_xml then hdrTagsXmlPath else none)
        (config.audio_tracks.map (audioTempPath output_dir file_basename) ++
          config.external_audio_files.map (·.path))
        (config.subtitle_tracks.map (subTempPath output_dir file_basename) ++
          config.external_subtitle_files.map (·.path))
      .ok {
        skipped := false
        ops := audioOps ++ subOps ++ videoOps ++ [muxOp]
        cfgResolved := config
        overrideNeeded := override_needed
        useHdrTagsXml := use_hdr_tags_xml
        hdrTagsXmlPath := hdrTagsXmlPath }

/-- Per-file failure accounting of `run_batch_processing`
(batch.py lines 62-91): a file with no video stream or a raised exception
increments `fail_count`; a normal return (including the existing-output
skip) increments `success_count`. -/
def batchFileFails (hasVideo : Bool) (runResult : Except String RunOutput) : Bool :=
  if !hasVideo then true
  else
    match runResult with
    | .ok _ => false
    | .error _ => true

/-! ### Strategy classes (src/lib/processing_strategies.py) -/

/-- The dictionary returned by `VideoProcessor.process`. -/
structure StrategyResult where
  video_input : String
  map_str : String
  final_mux_step : String
  input_type : String
  deriving Repr, DecidableEq

/-- A strategy's executed command plan, its recorded `self.temp_files`
list, and its returned result dictionary. -/
structure StrategyOutput where
  ops : List Op := []
  temp_files : List String := []
  result : StrategyResult
  deriving Repr, DecidableEq

/-- `PassthroughStrategy.process` (processing_strategies.py lines 64-158).
The constructor arguments of `VideoProcessor` are passed alongside the
config. -/
def PassthroughStrategy.process (config : Config)
    (source_file output_dir file_basename : String) : Except String StrategyOutput :=
  let dv_policy := config.dv_policy
  let hdr10plus_policy := config.hdr10plus_policy
  let dv_profile_str := pyStrOfOptNat config.dv_profile
  let has_dv := config.has_dv
  let has_hdr10plus := config.has_hdr10plus
  match config.video_stream with
  | none => .error "Missing video_stream configuration for passthrough."
  | some vs =>
  let map_video := vs.index
  let dv_op_needed :=
    (dv_policy = "convert7_to_8" && dv_profile_str = "7") ||
    (dv_policy = "drop" && has_dv)
  let hdr10plus_op_needed := hdr10plus_policy = "drop" && has_hdr10plus
  if !dv_op_needed && !hdr10plus_op_needed then
    -- Case 1: pure passthrough
    .ok { ops := [], temp_files := [],
          result := { video_input := source_file, map_str := toString map_video,
                      final_mux_step := "4", input_type := "mkv_container" } }
  else
    -- Case 2: hybrid passthrough (convert or strip)
    let temp_video_raw :=
      pathJoin output_dir (file_basename ++ "_temp_video_raw.hevc")
    let ops0 := [Op.mkvextractTrack source_file map_video temp_video_raw]
    let temps0 := [temp_video_raw]
    let cur := temp_video_raw
    -- chain step 2a: Dolby Vision policy
    let (ops1, temps1, cur) :=
      if dv_policy = "convert7_to_8" && dv_profile_str = "7" then
        let temp_video_p8 :=
          pathJoin output_dir (file_basename ++ "_temp_video_p8.hevc")
        (ops0 ++ [Op.doviConvert "2" cur temp_video_p8],
         temps0 ++ [temp_video_p8], temp_video_p8)
      else if dv_policy = "drop" && has_dv then
        let temp_video_no_dv :=
          pathJoin output_dir (file_basename ++ "_temp_video_no_dv.hevc")
        (ops0 ++ [Op.doviRemove cur temp_video_no_dv],
         temps0 ++ [temp_video_no_dv], temp_video_no_dv)
      else (ops0, temps0, cur)
    -- chain step 2b: HDR10+ policy
    let (ops2, temps2, cur) :=
      if hdr10plus_policy = "drop" && has_hdr10plus then
        let temp_video_no_hdr10plus :=
          pathJoin output_dir (file_basename ++ "_temp_video_no_hdr10plus.hevc")
        (ops1 ++ [Op.hdr10plusRemove cur temp_video_no_hdr10plus],
         temps1 ++ [temp_video_no_hdr10plus], temp_video_no_hdr10plus)
      else (ops1, temps1, cur)
    .ok { ops := ops2, temp_files := temps2,
          result := { video_input := cur, map_str := "0",
                      final_mux_step := "6", input_type := "raw_hevc" } }

/-- `EncodeStrategy.process` (processing_strategies.py lines 169-379). -/
def EncodeStrategy.process (config : Config)
    (source_file output_dir file_basename : String) : Except String StrategyOutput :=
  match config.video_stream with
  | none => .error "Missing video_stream configuration for encode."
  | some vs =>
  let video_codec_name := vs.codec_name
  let map_video := vs.index
  let dv_policy := config.dv_policy
  let hdr10plus_policy := config.hdr10plus_policy
  let is_hevc := pyIn "hevc" video_codec_name || pyIn "h265" video_codec_name
  let has_dynamic_hdr := config.has_dv || config.has_hdr10plus
  let needs_injection_path := is_hevc && has_dynamic_hdr
  if needs_injection_path then
    -- PATH A: complex injection path
    let temp_video_raw :=
      pathJoin output_dir (file_basename ++ "_temp_video_raw.hevc")
    let temp_video_converted_hevc :=
      pathJoin output_dir (file_basename ++ "_temp_video_converted.hevc")
    let temps0 := [temp_video_raw, temp_video_converted_hevc]
    let ops0 := [Op.mkvextractTrack source_file map_video temp_video_raw,
                 Op.ffmpegEncodeRaw temp_video_raw (pickFramerate vs)
                   (encoderFlags config.encoder config.encoder_params)
                   temp_video_converted_hevc]
    let cur := temp_video_converted_hevc
    -- step 3a: Dolby Vision RPU
    let dv_profile_str := pyStrOfOptNat config.dv_profile
    let (ops1, temps1, cur) :=
      if config.has_dv && dv_policy ≠ "drop" then
        if dv_profile_str = "7" || dv_profile_str = "8" then
          let temp_rpu_original :=
            pathJoin output_dir (file_basename ++ "_temp_RPU_original.bin")
          let temp_video_final_dv :=
            pathJoin output_dir (file_basename ++ "_temp_video_final_dv.hevc")
          let extractOp := Op.doviExtractRpu temp_video_raw temp_rpu_original
          if dv_profile_str = "7" then
            let temp_editor_json :=
              pathJoin output_dir (file_basename ++ "_temp_editor.json")
            let temp_rpu_converted_p8 :=
              pathJoin output_dir (file_basename ++ "_temp_RPU_P8_converted.bin")
            (ops0 ++ [extractOp,
                      Op.doviEditor temp_rpu_original temp_editor_json
                        temp_rpu_converted_p8,
                      Op.doviInjectRpu cur temp_rpu_converted_p8 temp_video_final_dv],
             temps0 ++ [temp_rpu_original, temp_video_final_dv,
                        temp_editor_json, temp_rpu_converted_p8],
             temp_video_final_dv)
          else
            (ops0 ++ [extractOp,
                      Op.doviInjectRpu cur temp_rpu_original temp_video_final_dv],
             temps0 ++ [temp_rpu_original, temp_video_final_dv],
             temp_video_final_dv)
        else (ops0, temps0, cur)  -- unsupported DV profile: skip injection
      else (ops0, temps0, cur)    -- dv_policy 'drop' or no DV
    -- step 3b: HDR10+
    let (ops2, temps2, cur) :=
      if config.has_hdr10plus && hdr10plus_policy = "keep" then
        let temp_hdr10plus_json :=
          pathJoin output_dir (file_basename ++ "_temp_hdr10plus.json")
        let temp_video_with_hdr10plus :=
          pathJoin output_dir (file_basename ++ "_temp_video_with_hdr10plus.hevc")
        (ops1 ++ [Op.hdr10plusExtract temp_video_raw temp_hdr10plus_json,
                  Op.hdr10plusInject cur temp_hdr10plus_json
                    temp_video_with_hdr10plus],
         temps1 ++ [temp_hdr10plus_json, temp_video_with_hdr10plus],
         temp_video_with_hdr10plus)
      else (ops1, temps1, cur)
    .ok { ops := ops2, temp_files := temps2,
          result := { video_input := cur, map_str := "0",
                      final_mux_step := "8", input_type := "raw_hevc" } }
  else
    -- PATH B: simple encode path
    let temp_video_converted_hevc :=
      pathJoin output_dir (file_basename ++ "_temp_video_converted.hevc")
    let extraFlags :=
      (if !has_dynamic_hdr then
        ["-map_metadata:s:v", "0:s:" ++ toString map_video]
       else []) ++
      ["-an", "-sn"] ++
      encoderFlags config.encoder config.encoder_params
    .ok { ops := [Op.ffmpegEncodeSource source_file map_video extraFlags
                   temp_video_converted_hevc],
          temp_files := [temp_video_converted_hevc],
          result := { video_input := temp_video_converted_hevc, map_str := "0",
                      final_mux_step := "5", input_type := "raw_hevc" } }

/-! ### Helper lemmas -/

/-- When no element of `l` satisfies `P`, any P-before-Q ordering claim
holds vacuously. -/
theorem idx_lt_of_no_P {α : Type} (l : List α) (P Q : α → Bool)
    (hP : ∀ x ∈ l, P x = false) :
    ∀ (i j : Nat) (oi oj : α), l[i]? = some oi → P oi = true →
      l[j]? = some oj → Q oj = true → i < j := by
  intro i j oi oj hi hPi _ _
  have hmem := List.getElem?_mem hi
  rw [hP oi hmem] at hPi
  exact absurd hPi Bool.false_ne_true

/-- If every `P`-element of `l` lies in the prefix `a` and every
`Q`-element lies in the suffix `b`, then any `P`-position precedes any
`Q`-position. -/
theorem idx_lt_of_split {α : Type} (l a b : List α) (P Q : α → Bool)
    (hl : l = a ++ b) (hPb : ∀ x ∈ b, P x = false) (hQa : ∀ x ∈ a, Q x = false) :
    ∀ (i j : Nat) (oi oj : α), l[i]? = some oi → P oi = true →
      l[j]? = some oj → Q oj = true → i < j := by
  subst hl
  intro i j oi oj hi hP hj hQ
  have hi_lt : i < a.length := by
    by_contra hge
    push_neg at hge
    rw [List.getElem?_append_right hge] at hi
    have hmem : oi ∈ b := List.getElem?_mem hi
    rw [hPb oi hmem] at hP
    exact Bool.false_ne_true hP
  have hj_ge : a.length ≤ j := by
    by_contra hlt
    push_neg at hlt
    rw [List.getElem?_append_left hlt] at hj
    have hmem : oj ∈ a := List.getElem?_mem hj
    rw [hQa oj hmem] at hQ
    exact Bool.false_ne_true hQ
  omega

/-- Specialization of `idx_lt_of_split` to plans of the shape
`A ++ (B ++ (x1 :: x2 :: rest))`, splitting after `x2`. -/
theorem idx_lt_pattern {α : Type} (A B rest : List α) (x1 x2 : α) (P Q : α → Bool)
    (hPrest : ∀ x ∈ rest, P x = false)
    (hQA : ∀ x ∈ A, Q x = false) (hQB : ∀ x ∈ B, Q x = false)
    (hQ1 : Q x1 = false) (hQ2 : Q x2 = false) :
    ∀ (i j : Nat) (oi oj : α), (A ++ (B ++ (x1 :: x2 :: rest)))[i]? = some oi →
      P oi = true → (A ++ (B ++ (x1 :: x2 :: rest)))[j]? = some oj →
      Q oj = true → i < j := by
  apply idx_lt_of_split (A ++ (B ++ (x1 :: x2 :: rest))) (A ++ B ++ [x1, x2]) rest P Q
  · simp
  · exact hPrest
  · intro x hx
    simp only [List.mem_append, List.mem_cons, List.mem_singleton,
      List.not_mem_nil, or_false] at hx
    rcases hx with (h | h) | h | h
    · exact hQA x h
    · exact hQB x h
    · exact h ▸ hQ1
    · exact h ▸ hQ2

/-! ### Claims -/

/-- Concrete counterexample input for C1: a batch-style Profile 5 catalog
with a requested passthrough + `dv_policy = 'drop'` policy. -/
def c1cfg : Config :=
  { has_dv := true, dv_profile := some 5, video_policy := "passthrough",
    dv_policy := "drop", passthrough_convert_dv_to_p8 := some false,
    video_stream := some { codec_type := "video", index := 0, codec_name := "hevc" } }

/-- C1 as stated is false: for the Profile-5 catalog `c1cfg` whose request
is passthrough with `dv_policy = 'drop'` (so not the safe
passthrough+keep state), the safety check neither rewrites `dv_policy` to
`keep` nor raises the override flag. -/
theorem c1_counterexample :
    pyStrOfOptNat c1cfg.dv_profile = "5" ∧
    ¬(c1cfg.video_policy = "passthrough" ∧ c1cfg.dv_policy = "keep") ∧
    ¬((profile5SanityCheck c1cfg).1.dv_policy = "keep" ∧
      (profile5SanityCheck c1cfg).2 = true) := by
  refine ⟨rfl, ?_, ?_⟩ <;> decide

/-- C1 (amended): for a Profile-5 catalog and a requested `video_mode` of
encode or passthrough, the checked config always ends passthrough with the
hybrid-convert flag not set; `SafetyOverride` is raised exactly when the
request was encode or had the hybrid-convert flag set; and `dv_policy` is
never modified by the check (in particular a `drop` request survives
unchanged and unflagged). -/
theorem c1_profile5_check (config : Config)
    (h5 : pyStrOfOptNat config.dv_profile = "5")
    (hreq : config.video_policy = "encode" ∨ config.video_policy = "passthrough") :
    (profile5SanityCheck config).1.video_policy = "passthrough" ∧
    (profile5SanityCheck config).1.passthrough_convert_dv_to_p8 ≠ some true ∧
    ((profile5SanityCheck config).2 = true ↔
      (config.video_policy = "encode" ∨
        config.passthrough_convert_dv_to_p8 = some true)) ∧
    (profile5SanityCheck config).1.dv_policy = config.dv_policy := by
  unfold profile5SanityCheck
  rw [h5]
  simp only [if_pos rfl]
  by_cases henc : config.video_policy = "encode"
  · simp [henc]
  · by_cases hflag : config.passthrough_convert_dv_to_p8 = some true
    · simp [henc, hflag]
    · have hpass : config.video_policy = "passthrough" := hreq.resolve_left henc
      simp [henc, hflag, hpass]

/-- Witness for `c1_profile5_check` at a concrete Profile-5 encode
request. -/
theorem c1_profile5_check_witness :
    (profile5SanityCheck { dv_profile := some 5, video_policy := "encode" }).1.video_policy
      = "passthrough" :=
  (c1_profile5_check { dv_profile := some 5, video_policy := "encode" }
    (by decide) (Or.inl rfl)).1

/-- C2: in `PassthroughStrategy.process` the pure-passthrough result (no
operation executed, the unmodified source container returned) is produced
iff no mutation is requested-and-applicable: not convert7_to_8 with
profile 7, not drop with DV present, not HDR10+ drop with HDR10+ present;
otherwise the hybrid chain starts with the raw extraction and contains
each convert/strip operation exactly when it is applicable. -/
theorem c2_pure_passthrough_iff (config : Config) (sf od fb : String)
    (vs : StreamRec) (hv : config.video_stream = some vs) :
    ∃ out, PassthroughStrategy.process config sf od fb = .ok out ∧
      ((out.ops = [] ∧ out.result.video_input = sf ∧
          out.result.input_type = "mkv_container")
        ↔ ¬((config.dv_policy = "convert7_to_8" ∧
              pyStrOfOptNat config.dv_profile = "7") ∨
            (config.dv_policy = "drop" ∧ config.has_dv = true) ∨
            (config.hdr10plus_policy = "drop" ∧ config.has_hdr10plus = true))) ∧
      (((config.dv_policy = "convert7_to_8" ∧
          pyStrOfOptNat config.dv_profile = "7") ∨
        (config.dv_policy = "drop" ∧ config.has_dv = true) ∨
        (config.hdr10plus_policy = "drop" ∧ config.has_hdr10plus = true)) →
        out.ops.head? = some (Op.mkvextractTrack sf vs.index
            (pathJoin od (fb ++ "_temp_video_raw.hevc"))) ∧
        ((∃ op ∈ out.ops, op.isDoviConvert = true) ↔
          (config.dv_policy = "convert7_to_8" ∧
            pyStrOfOptNat config.dv_profile = "7")) ∧
        ((∃ op ∈ out.ops, op.isDoviRemove = true) ↔
          (¬(config.dv_policy = "convert7_to_8" ∧
              pyStrOfOptNat config.dv_profile = "7") ∧
            config.dv_policy = "drop" ∧ config.has_dv = true)) ∧
        ((∃ op ∈ out.ops, op.isHdr10plusRemove = true) ↔
          (config.hdr10plus_policy = "drop" ∧ config.has_hdr10plus = true))) := by
  simp only [PassthroughStrategy.process, hv]
  by_cases hA : config.dv_policy = "convert7_to_8" ∧ pyStrOfOptNat config.dv_profile = "7" <;>
    by_cases hB : config.dv_policy = "drop" ∧ config.has_dv = true <;>
    by_cases hC : config.hdr10plus_policy = "drop" ∧ config.has_hdr10plus = true <;>
    simp_all [Op.isDoviConvert, Op.isDoviRemove, Op.isHdr10plusRemove] <;>
    split_ifs <;>
    simp_all [Op.isDoviConvert, Op.isDoviRemove, Op.isHdr10plusRemove]

/-- Witness for `c2_pure_passthrough_iff`: a keep/keep config takes the
pure path. -/
theorem c2_pure_passthrough_iff_witness :
    ∃ out, PassthroughStrategy.process
        { video_stream := some { codec_type := "video", index := 0, codec_name := "hevc" } }
        "/in/s.mkv" "/out" "base" = .ok out ∧
      out.ops = [] ∧ out.result.video_input = "/in/s.mkv" := by
  obtain ⟨out, hrun, hiff, -⟩ := c2_pure_passthrough_iff
    { video_stream := some { codec_type := "video", index := 0, codec_name := "hevc" } }
    "/in/s.mkv" "/out" "base"
    { codec_type := "video", index := 0, codec_name := "hevc" } rfl
  refine ⟨out, hrun, ?_⟩
  have h := hiff.mpr (by decide)
  exact ⟨h.1, h.2.1⟩

/-- The Profile 5 check only rewrites `video_policy` and
`passthrough_convert_dv_to_p8`; every other config field is untouched. -/
theorem profile5SanityCheck_fields (c : Config) :
    (profile5SanityCheck c).1.video_stream = c.video_stream ∧
    (profile5SanityCheck c).1.dv_profile = c.dv_profile ∧
    (profile5SanityCheck c).1.audio_tracks = c.audio_tracks ∧
    (profile5SanityCheck c).1.subtitle_tracks = c.subtitle_tracks ∧
    (profile5SanityCheck c).1.external_audio_files = c.external_audio_files ∧
    (profile5SanityCheck c).1.external_subtitle_files = c.external_subtitle_files ∧
    (profile5SanityCheck c).1.final_filename = c.final_filename ∧
    (profile5SanityCheck c).1.dv_policy = c.dv_policy ∧
    (profile5SanityCheck c).1.encoder = c.encoder ∧
    (profile5SanityCheck c).1.encoder_params = c.encoder_params ∧
    (profile5SanityCheck c).1.hdr10_master_display = c.hdr10_master_display ∧
    (profile5SanityCheck c).1.hdr10_cll_fall = c.hdr10_cll_fall := by
  unfold profile5SanityCheck
  dsimp only
  split_ifs <;> exact ⟨rfl, rfl, rfl, rfl, rfl, rfl, rfl, rfl, rfl, rfl, rfl, rfl⟩

/-- C3: in the unified encode path with the original RPU re-injected (DV
present, policy not drop, profile 7 or 8), a convert-RPU (`dovi_tool
editor`) operation appears iff the profile is 7, every such operation
precedes the inject-RPU operation, and the injected RPU file is the
converted one exactly when the profile is 7 (otherwise the original). -/
theorem c3_rpu_convert_iff_profile7 (config : Config) (sf od fb : String)
    (vs : StreamRec) (hv : config.video_stream = some vs)
    (hhevc : (pyIn "hevc" vs.codec_name || pyIn "h265" vs.codec_name) = true)
    (hdv : config.has_dv = true)
    (hkeep : config.dv_policy ≠ "drop")
    (hprof : pyStrOfOptNat config.dv_profile = "7" ∨
      pyStrOfOptNat config.dv_profile = "8") :
    ∃ out, EncodeStrategy.process config sf od fb = .ok out ∧
      ((∃ op ∈ out.ops, op.isDoviEditor = true) ↔
        pyStrOfOptNat config.dv_profile = "7") ∧
      (∀ (i j : Nat) (oi oj : Op), out.ops[i]? = some oi → oi.isDoviEditor = true →
        out.ops[j]? = some oj → oj.isDoviInjectRpu = true → i < j) ∧
      (∀ op ∈ out.ops, op.isDoviInjectRpu = true →
        op = Op.doviInjectRpu (pathJoin od (fb ++ "_temp_video_converted.hevc"))
          (if pyStrOfOptNat config.dv_profile = "7" then
            pathJoin od (fb ++ "_temp_RPU_P8_converted.bin")
          else pathJoin od (fb ++ "_temp_RPU_original.bin"))
          (pathJoin od (fb ++ "_temp_video_final_dv.hevc"))) := by
  rcases hprof with h7 | h8 <;>
    by_cases hH : config.has_hdr10plus = true ∧ config.hdr10plus_policy = "keep" <;>
    simp_all [EncodeStrategy.process, Op.isDoviEditor, Op.isDoviInjectRpu]
  · refine idx_lt_of_split _ (List.take 4 _) (List.drop 4 _) _ _
      (List.take_append_drop 4 _).symm ?_ ?_ <;>
      simp [Op.isDoviEditor, Op.isDoviInjectRpu]
  · rw [if_neg (fun h => hH h.1 h.2)]
    refine ⟨?_, ?_, ?_⟩
    · simp [Op.isDoviEditor]
    · refine idx_lt_of_split _ (List.take 4 _) (List.drop 4 _) _ _
        (List.take_append_drop 4 _).symm ?_ ?_ <;>
        simp [Op.isDoviEditor, Op.isDoviInjectRpu]
    · simp [Op.isDoviInjectRpu]
  · exact idx_lt_of_no_P _ _ _ (by simp [Op.isDoviEditor])
  · rw [if_neg (fun h => hH h.1 h.2)]
    refine ⟨?_, ?_, ?_⟩
    · simp [Op.isDoviEditor]
    · exact idx_lt_of_no_P _ _ _ (by simp [Op.isDoviEditor])
    · simp [Op.isDoviInjectRpu]

/-- Concrete Profile 7 encode config used as the C3 witness input. -/
def c3cfg : Config :=
  { has_dv := true, dv_profile := some 7, video_policy := "encode",
    video_stream := some { codec_type := "video", index := 0, codec_name := "hevc" } }

/-- Witness for `c3_rpu_convert_iff_profile7` at a Profile 7 HEVC encode. -/
theorem c3_rpu_convert_iff_profile7_witness :
    ∃ out, EncodeStrategy.process c3cfg "/in/s.mkv" "/out" "base" = .ok out ∧
      ∃ op ∈ out.ops, op.isDoviEditor = true := by
  obtain ⟨out, hrun, hiff, -, -⟩ := c3_rpu_convert_iff_profile7 c3cfg "/in/s.mkv" "/out"
    "base" { codec_type := "video", index := 0, codec_name := "hevc" }
    rfl (by decide) rfl (by decide) (Or.inl (by decide))
  exact ⟨out, hrun, hiff.mpr (by decide)⟩

/-- C4: in `run_full_conversion`'s unified encode path (encode mode after
the Profile 5 check, DV profile 7 or 8), the plan contains the extract-RPU
operation reading the original raw stream and an encode operation, and
every extract-RPU position precedes every encode position. -/
theorem c4_rpu_extract_before_encode (sf od fb : String) (config : Config)
    (hdrOk : Bool) (out : RunOutput)
    (hpolicy : (profile5SanityCheck config).1.video_policy ≠ "passthrough")
    (hprof : pyStrOfOptNat config.dv_profile = "7" ∨
      pyStrOfOptNat config.dv_profile = "8")
    (hrun : run_full_conversion sf od config fb false hdrOk = .ok out) :
    (Op.doviExtractRpu (pathJoin od (sanitize_filename fb ++ "_temp_video_raw.hevc"))
        (pathJoin od (sanitize_filename fb ++ "_temp_RPU_original.bin")) ∈ out.ops) ∧
    (∃ op ∈ out.ops, op.isEncode = true) ∧
    (∀ (i j : Nat) (oi oj : Op), out.ops[i]? = some oi → oi.isDoviExtractRpu = true →
      out.ops[j]? = some oj → oj.isEncode = true → i < j) := by
  obtain ⟨hPvs, hPprof, -⟩ := profile5SanityCheck_fields config
  rcases hvs : config.video_stream with _ | vs
  · exfalso
    rw [hvs] at hPvs
    simp [run_full_conversion, videoPathPlan, hPvs, hpolicy] at hrun
  · rw [hvs] at hPvs
    by_cases hhevc : pyIn "hevc" vs.codec_name = true
    · rcases hprof with h7 | h8
      · simp [run_full_conversion, videoPathPlan, hPvs, hpolicy, hPprof, hhevc,
          h7] at hrun
        obtain rfl := hrun.symm
        refine ⟨?_, ?_, ?_⟩
        · simp
        · exact ⟨Op.ffmpegEncodeRaw
            (pathJoin od (sanitize_filename fb ++ "_temp_video_raw.hevc"))
            (pickFramerate vs)
            (encoderFlags (profile5SanityCheck config).1.encoder
              (profile5SanityCheck config).1.encoder_params)
            (pathJoin od (sanitize_filename fb ++ "_temp_video_converted.hevc")),
            by simp, rfl⟩
        · refine idx_lt_pattern _ _ _ _ _ _ _ ?_ ?_ ?_ rfl rfl
          · intro x hx
            simp at hx
            rcases hx with rfl | rfl | rfl | rfl
            all_goals rfl
          · intro x hx
            simp at hx
            obtain ⟨s, -, rfl⟩ := hx
            rfl
          · intro x hx
            simp at hx
            obtain ⟨s, -, rfl⟩ := hx
            rfl
      · simp [run_full_conversion, videoPathPlan, hPvs, hpolicy, hPprof, hhevc,
          h8] at hrun
        obtain rfl := hrun.symm
        refine ⟨?_, ?_, ?_⟩
        · simp
        · exact ⟨Op.ffmpegEncodeRaw
            (pathJoin od (sanitize_filename fb ++ "_temp_video_raw.hevc"))
            (pickFramerate vs)
            (encoderFlags (profile5SanityCheck config).1.encoder
              (profile5SanityCheck config).1.encoder_params)
            (pathJoin od (sanitize_filename fb ++ "_temp_video_converted.hevc")),
            by simp, rfl⟩
        · refine idx_lt_pattern _ _ _ _ _ _ _ ?_ ?_ ?_ rfl rfl
          · intro x hx
            simp at hx
            rcases hx with rfl | rfl | rfl
            all_goals rfl
          · intro x hx
            simp at hx
            obtain ⟨s, -, rfl⟩ := hx
            rfl
          · intro x hx
            simp at hx
            obtain ⟨s, -, rfl⟩ := hx
            rfl
    · exfalso
      rcases hprof with h7 | h8
      · simp [run_full_conversion, videoPathPlan, hPvs, hpolicy, hPprof, hhevc,
          h7] at hrun
      · simp [run_full_conversion, videoPathPlan, hPvs, hpolicy, hPprof, hhevc,
          h8] at hrun

/-- Concrete Profile 7 encode batch config used as the C4 witness input. -/
def c4cfg : Config :=
  { has_dv := true, dv_profile := some 7, video_policy := "encode",
    final_filename := "out.mkv",
    video_stream := some { codec_type := "video", index := 0, codec_name := "hevc" } }

/-- The plan `run_full_conversion` produces for `c4cfg`. -/
def c4out : RunOutput :=
  { skipped := false
    ops := [Op.mkvextractTrack "/in/s.mkv" 0 "/out/base_temp_video_raw.hevc",
            Op.doviExtractRpu "/out/base_temp_video_raw.hevc"
              "/out/base_temp_RPU_original.bin",
            Op.ffmpegEncodeRaw "/out/base_temp_video_raw.hevc" none
              ["-c:v", "hevc_nvenc", "-preset", "", "-cq", "", "-pix_fmt", "p010le"]
              "/out/base_temp_video_converted.hevc",
            Op.doviEditor "/out/base_temp_RPU_original.bin" "/out/base_temp_editor.json"
              "/out/base_temp_RPU_P8_converted.bin",
            Op.doviInjectRpu "/out/base_temp_video_converted.hevc"
              "/out/base_temp_RPU_P8_converted.bin"
              "/out/base_temp_video_final_dv.hevc",
            Op.mkvmergeMux "/out/out.mkv" "/out/base_temp_video_final_dv.hevc" "0"
              false none [] []]
    cfgResolved := c4cfg
    overrideNeeded := false
    useHdrTagsXml := true
    hdrTagsXmlPath := none }

/-- Witness for `c4_rpu_extract_before_encode` at a concrete Profile 7
encode run: the extract-RPU op is in the plan. -/
theorem c4_rpu_extract_before_encode_witness :
    Op.doviExtractRpu "/out/base_temp_video_raw.hevc"
      "/out/base_temp_RPU_original.bin" ∈ c4out.ops := by
  have h := (c4_rpu_extract_before_encode "/in/s.mkv" "/out" "base" c4cfg true c4out
    (by decide) (Or.inl (by decide)) (by rfl)).1
  have h1 : pathJoin "/out" (sanitize_filename "base" ++ "_temp_video_raw.hevc") =
      "/out/base_temp_video_raw.hevc" := by decide
  have h2 : pathJoin "/out" (sanitize_filename "base" ++ "_temp_RPU_original.bin") =
      "/out/base_temp_RPU_original.bin" := by decide
  rw [h1, h2] at h
  exact h

set_option maxHeartbeats 2000000 in
/-- C5: in the unified encode path with HDR10+ present and kept, the
HDR10+ extraction reads the originally extracted raw stream, the HDR10+
injection writes into the current chain output (the RPU-injected file when
DV injection occurred, otherwise the encoded file), and every DV
RPU-injection position precedes every HDR10+-injection position. -/
theorem c5_hdr10plus_chain (config : Config) (sf od fb : String) (vs : StreamRec)
    (hv : config.video_stream = some vs)
    (hhevc : (pyIn "hevc" vs.codec_name || pyIn "h265" vs.codec_name) = true)
    (hhp : config.has_hdr10plus = true)
    (hkeep : config.hdr10plus_policy = "keep") :
    ∃ out, EncodeStrategy.process config sf od fb = .ok out ∧
      (∀ op ∈ out.ops, op.isHdr10plusExtract = true →
        op = Op.hdr10plusExtract (pathJoin od (fb ++ "_temp_video_raw.hevc"))
          (pathJoin od (fb ++ "_temp_hdr10plus.json"))) ∧
      (∃ op ∈ out.ops, op.isHdr10plusExtract = true) ∧
      (∀ op ∈ out.ops, op.isHdr10plusInject = true →
        op = Op.hdr10plusInject
          (if config.has_dv = true ∧ config.dv_policy ≠ "drop" ∧
              (pyStrOfOptNat config.dv_profile = "7" ∨
                pyStrOfOptNat config.dv_profile = "8") then
            pathJoin od (fb ++ "_temp_video_final_dv.hevc")
          else pathJoin od (fb ++ "_temp_video_converted.hevc"))
          (pathJoin od (fb ++ "_temp_hdr10plus.json"))
          (pathJoin od (fb ++ "_temp_video_with_hdr10plus.hevc"))) ∧
      (∀ (i j : Nat) (oi oj : Op), out.ops[i]? = some oi →
        oi.isDoviInjectRpu = true → out.ops[j]? = some oj →
        oj.isHdr10plusInject = true → i < j) := by
  by_cases hdv : config.has_dv = true <;>
    by_cases hdrop : config.dv_policy = "drop" <;>
    by_cases h7 : pyStrOfOptNat config.dv_profile = "7" <;>
    by_cases h8 : pyStrOfOptNat config.dv_profile = "8" <;>
    simp_all [EncodeStrategy.process, Op.isHdr10plusExtract, Op.isHdr10plusInject,
      Op.isDoviInjectRpu] <;>
    first
      | (refine idx_lt_of_no_P _ _ _ ?_; simp [Op.isDoviInjectRpu]; done)
      | (refine idx_lt_of_split _ (List.take 5 _) (List.drop 5 _) _ _
          (List.take_append_drop 5 _).symm ?_ ?_ <;>
          simp [Op.isDoviInjectRpu, Op.isHdr10plusInject])

/-- Concrete HDR10+ Profile 7 encode input for the C5 witness. -/
def c5cfg : Config :=
  { has_dv := true, has_hdr10plus := true, dv_profile := some 7,
    video_stream := some { codec_type := "video", index := 0, codec_name := "hevc" } }

/-- Witness for `c5_hdr10plus_chain` at a concrete HDR10+/DV Profile 7
encode: the plan contains the HDR10+ extraction op. -/
theorem c5_hdr10plus_chain_witness :
    ∃ out, EncodeStrategy.process c5cfg "/in/s.mkv" "/out" "base" = .ok out ∧
      ∃ op ∈ out.ops, op.isHdr10plusExtract = true := by
  obtain ⟨out, hrun, -, hex, -, -⟩ := c5_hdr10plus_chain c5cfg "/in/s.mkv" "/out" "base"
    { codec_type := "video", index := 0, codec_name := "hevc" }
    rfl (by decide) rfl rfl
  exact ⟨out, hrun, hex⟩

/-- The Profile 5 check is the identity (with override `false`) off
profile 5. -/
theorem profile5SanityCheck_not5 (c : Config)
    (h : pyStrOfOptNat c.dv_profile ≠ "5") : profile5SanityCheck c = (c, false) := by
  unfold profile5SanityCheck
  dsimp only
  rw [if_neg h]

/-- C8: when the final output path already exists, `run_full_conversion`
returns normally with an empty operation plan (benign skip: nothing is
extracted, encoded, or muxed, and the existing file is untouched), and in
batch accounting the file is not counted as a failure. -/
theorem c8_existing_output_skip (sf od fb : String) (config : Config) (hdrOk : Bool) :
    run_full_conversion sf od config fb true hdrOk =
      .ok { skipped := true, ops := [], cfgResolved := config } ∧
    batchFileFails true (run_full_conversion sf od config fb true hdrOk) = false :=
  ⟨rfl, rfl⟩

/-- On a profile-8 catalog (and the batch-mode absence of the
hybrid-convert flag), no `dovi_tool convert` or `dovi_tool editor`
operation appears in any successful `run_full_conversion` plan. -/
theorem run_full_conversion_profile8_no_convert (sf od fb : String) (c : Config)
    (oe hdrOk : Bool) (out : RunOutput)
    (hprof : c.dv_profile = some 8)
    (hflag : c.passthrough_convert_dv_to_p8 = none)
    (hrun : run_full_conversion sf od c fb oe hdrOk = .ok out) :
    ∀ op ∈ out.ops, op.isDoviConvert = false ∧ op.isDoviEditor = false := by
  have hnot5 : profile5SanityCheck c = (c, false) :=
    profile5SanityCheck_not5 c (by rw [hprof]; decide)
  have hstr : pyStrOfOptNat (some 8) = "8" := by decide
  cases oe
  · rcases hvs : c.video_stream with _ | vs
    · by_cases hp : c.video_policy = "passthrough" <;>
        simp [run_full_conversion, videoPathPlan, hnot5, hvs, hp, hprof, hflag,
          hstr] at hrun
    · by_cases hp : c.video_policy = "passthrough" <;>
        by_cases hhevc : pyIn "hevc" vs.codec_name = true <;>
        simp [run_full_conversion, videoPathPlan, hnot5, hvs, hp, hprof, hflag,
          hstr, hhevc] at hrun <;>
        (try first
          | obtain rfl := hrun
          | obtain rfl := hrun.symm) <;>
        (intro op hop
         simp only [List.mem_append, List.mem_map, List.mem_cons,
           List.not_mem_nil, or_false] at hop
         first
           | (rcases hop with ⟨s, -, rfl⟩ | ⟨s, -, rfl⟩ | rfl
              all_goals exact ⟨rfl, rfl⟩)
           | (rcases hop with ⟨s, -, rfl⟩ | ⟨s, -, rfl⟩ | rfl | rfl | rfl | rfl | rfl
              all_goals exact ⟨rfl, rfl⟩)
           | (rcases hop with ⟨s, -, rfl⟩ | ⟨s, -, rfl⟩ | rfl | rfl
              all_goals exact ⟨rfl, rfl⟩))
  · simp [run_full_conversion] at hrun
    obtain rfl := hrun.symm
    simp

/-- C7: for a profile-8 catalog, a requested `dv_policy = convert7_to_8`
is normalized to `keep` by `configure_automated_run`, and no conversion
(`dovi_tool convert` / `dovi_tool editor`) operation appears in the run's
plan. -/
theorem c7_convert7to8_normalized_on_profile8 (streams : ProbeStreams)
    (sf od enc : String) (profile_data : ProfileData) (ex : String → Bool)
    (cfg : Config)
    (h8 : streams.dv_profile = some 8)
    (hreq : profile_data.dv_policy = "convert7_to_8")
    (hconf : configure_automated_run streams sf od profile_data enc ex = .ok cfg) :
    cfg.dv_policy = "keep" ∧
    ∀ (fb : String) (oe hdrOk : Bool) (out : RunOutput),
      run_full_conversion sf od cfg fb oe hdrOk = .ok out →
      ∀ op ∈ out.ops, op.isDoviConvert = false ∧ op.isDoviEditor = false := by
  rcases hv : streams.video with _ | ⟨v, rest⟩
  · simp [configure_automated_run, hv] at hconf
  · rcases haud : profile_data.audio_selection with _ | pol1 <;>
      rcases hsub : profile_data.subtitle_selection with _ | pol2 <;>
      simp [configure_automated_run, ProbeStreams.get, ProbeStreams.getBoolD,
        hv, haud, hsub, h8, hreq] at hconf <;>
      obtain rfl := hconf.symm <;>
      refine ⟨rfl, ?_⟩ <;>
      intro fb oe hdrOk out hrun <;>
      exact run_full_conversion_profile8_no_convert sf od fb _ oe hdrOk out rfl rfl hrun

/-- Concrete profile-8 catalog and convert-requesting profile for the C7
witness. -/
def c7streams : ProbeStreams :=
  { video := [{ codec_type := "video", index := 0, codec_name := "hevc" }],
    has_dv := true, dv_profile := some 8 }

def c7profile : ProfileData := { dv_policy := "convert7_to_8" }

/-- The config `configure_automated_run` produces for `c7streams` /
`c7profile`. -/
def c7cfg : Config :=
  { has_dv := true, dv_profile := some 8,
    final_filename := "Movie (2008) [HEVC CQ DV].mkv",
    video_stream := some { codec_type := "video", index := 0, codec_name := "hevc" } }

/-- Witness for `c7_convert7to8_normalized_on_profile8` at a concrete
profile-8 catalog. -/
theorem c7_convert7to8_normalized_on_profile8_witness :
    configure_automated_run c7streams "/in/Movie (2008).mkv" "/out" c7profile
      "nvenc" (fun _ => false) = .ok c7cfg ∧ c7cfg.dv_policy = "keep" :=
  ⟨rfl, (c7_convert7to8_normalized_on_profile8 c7streams "/in/Movie (2008).mkv"
    "/out" "nvenc" c7profile (fun _ => false) c7cfg rfl rfl rfl).1⟩

/-- With `has_hdr10plus = false`, `PassthroughStrategy.process` emits no
`hdr10plus_tool` operation. -/
theorem passthroughProcess_no_hdr (c : Config) (sf od fb : String)
    (out : StrategyOutput) (hp : c.has_hdr10plus = false)
    (hrun : PassthroughStrategy.process c sf od fb = .ok out) :
    ∀ op ∈ out.ops, op.isHdr10plus = false := by
  rcases hv : c.video_stream with _ | vs
  · simp [PassthroughStrategy.process, hv] at hrun
  · by_cases hcp : c.dv_policy = "convert7_to_8" <;>
      by_cases h7 : pyStrOfOptNat c.dv_profile = "7" <;>
      by_cases hdp : c.dv_policy = "drop" <;>
      by_cases hdv : c.has_dv = true <;>
      simp_all [PassthroughStrategy.process, Op.isHdr10plus] <;>
      (try obtain rfl := hrun.symm) <;>
      simp [Op.isHdr10plus]

/-- With `has_hdr10plus = false`, `EncodeStrategy.process` emits no
`hdr10plus_tool` operation. -/
theorem encodeProcess_no_hdr (c : Config) (sf od fb : String)
    (out : StrategyOutput) (hp : c.has_hdr10plus = false)
    (hrun : EncodeStrategy.process c sf od fb = .ok out) :
    ∀ op ∈ out.ops, op.isHdr10plus = false := by
  rcases hv : c.video_stream with _ | vs
  · simp [EncodeStrategy.process, hv] at hrun
  · by_cases hdv : c.has_dv = true <;>
      by_cases hhevc : (pyIn "hevc" vs.codec_name || pyIn "h265" vs.codec_name) = true <;>
      by_cases hdrop : c.dv_policy = "drop" <;>
      by_cases h7 : pyStrOfOptNat c.dv_profile = "7" <;>
      by_cases h8 : pyStrOfOptNat c.dv_profile = "8" <;>
      simp_all [EncodeStrategy.process, Op.isHdr10plus] <;>
      (try obtain rfl := hrun.symm) <;>
      simp [Op.isHdr10plus]

/-- C10: the probe result of `analizuj_plik` never contains a
`has_hdr10plus` key, so `configure_automated_run` always resolves
`has_hdr10plus` to `False`, and no HDR10+ operation can appear in either
strategy's plan for an automated run. -/
theorem c10_hdr10plus_never_detected (probed : List StreamRec)
    (fmd fcll : Option String) :
    (analizuj_plik probed fmd fcll).get "has_hdr10plus" = none ∧
    ∀ (sf od enc : String) (profile_data : ProfileData) (ex : String → Bool)
      (cfg : Config),
      configure_automated_run (analizuj_plik probed fmd fcll) sf od profile_data
        enc ex = .ok cfg →
      cfg.has_hdr10plus = false ∧
      (∀ (sfx odx fbx : String) (out : StrategyOutput),
        PassthroughStrategy.process cfg sfx odx fbx = .ok out →
        ∀ op ∈ out.ops, op.isHdr10plus = false) ∧
      (∀ (sfx odx fbx : String) (out : StrategyOutput),
        EncodeStrategy.process cfg sfx odx fbx = .ok out →
        ∀ op ∈ out.ops, op.isHdr10plus = false) := by
  refine ⟨rfl, ?_⟩
  intro sf od enc profile_data ex cfg hconf
  have hcfg : cfg.has_hdr10plus = false := by
    rcases hv : (analizuj_plik probed fmd fcll).video with _ | ⟨v, rest⟩
    · simp [configure_automated_run, hv] at hconf
    · rcases haud : profile_data.audio_selection with _ | pol1 <;>
        rcases hsub : profile_data.subtitle_selection with _ | pol2 <;>
        simp [configure_automated_run, ProbeStreams.get, ProbeStreams.getBoolD,
          hv, haud, hsub] at hconf <;>
        obtain rfl := hconf.symm <;>
        rfl
  refine ⟨hcfg, ?_, ?_⟩
  · intro sfx odx fbx out hrun
    exact passthroughProcess_no_hdr cfg sfx odx fbx out hcfg hrun
  · intro sfx odx fbx out hrun
    exact encodeProcess_no_hdr cfg sfx odx fbx out hcfg hrun

/-- Concrete probe input and resulting automated config for the C10
witness. -/
def c10probed : List StreamRec :=
  [{ codec_type := "video", index := 0, codec_name := "hevc" }]

def c10cfg : Config :=
  { final_filename := "m [HEVC CQ].mkv",
    video_stream := some { codec_type := "video", index := 0, codec_name := "hevc" } }

/-- Witness for `c10_hdr10plus_never_detected` at a concrete probe. -/
theorem c10_hdr10plus_never_detected_witness :
    (analizuj_plik c10probed none none).get "has_hdr10plus" = none ∧
    c10cfg.has_hdr10plus = false := by
  have h := c10_hdr10plus_never_detected c10probed none none
  exact ⟨h.1, (h.2 "/in/m.mkv" "/out" "nvenc" {} (fun _ => false) c10cfg rfl).1⟩

/-- No branch of the video-path section emits a mux operation. -/
theorem videoPathPlan_no_mux (sf od fb : String) (c : Config)
    (res : List Op × String × String × Bool)
    (h : videoPathPlan sf od fb c = .ok res) :
    ∀ op ∈ res.1, op.isMux = false := by
  rcases hv : c.video_stream with _ | vs
  · by_cases hp : c.video_policy = "passthrough" <;>
      by_cases hcv : c.passthrough_convert_dv_to_p8.getD false = true <;>
      by_cases h7 : pyStrOfOptNat c.dv_profile = "7" <;>
      by_cases h5 : pyStrOfOptNat c.dv_profile = "5" <;>
      by_cases h8 : pyStrOfOptNat c.dv_profile = "8" <;>
      simp_all [videoPathPlan, Op.isMux]
  · by_cases hp : c.video_policy = "passthrough"
    · by_cases hcv : c.passthrough_convert_dv_to_p8.getD false = true <;>
        by_cases h7 : pyStrOfOptNat c.dv_profile = "7" <;>
        by_cases h5 : pyStrOfOptNat c.dv_profile = "5" <;>
        simp_all [videoPathPlan, Op.isMux] <;>
        (try obtain rfl := h.symm) <;>
        simp [Op.isMux]
    · by_cases h7 : pyStrOfOptNat c.dv_profile = "7" <;>
        by_cases h8 : pyStrOfOptNat c.dv_profile = "8" <;>
        by_cases hh : pyIn "hevc" vs.codec_name = true <;>
        simp_all [videoPathPlan, Op.isMux] <;>
        (try obtain rfl := h.symm) <;>
        simp [Op.isMux]

/-- Concrete Profile 5 batch scenario for the C6 counterexample: an
encode-mode profile on a Profile 5 catalog. -/
def c6streams : ProbeStreams :=
  { video := [{ codec_type := "video", index := 0, codec_name := "hevc",
                width := some 3840, height := some 2160 }],
    has_dv := true, dv_profile := some 5 }

def c6profile : ProfileData := { encoder_params := { preset := "p7", cq := "16" } }

/-- The config `configure_automated_run` produces for the C6 scenario:
the filename is generated from the *requested* encode policy. -/
def c6cfg : Config :=
  { has_dv := true, dv_profile := some 5,
    final_filename := "Movie (2008) [2160p HEVC CQ16 DV].mkv",
    video_stream := some { codec_type := "video", index := 0, codec_name := "hevc",
                           width := some 3840, height := some 2160 },
    encoder_params := { preset := "p7", cq := "16" } }

/-- The run output for the C6 scenario. -/
def c6out : RunOutput :=
  { skipped := false
    ops := [Op.mkvmergeMux "/out/Movie (2008) [2160p HEVC CQ16 DV].mkv"
      "/in/Movie (2008).mkv" "0" true none [] []]
    cfgResolved := { c6cfg with
      video_policy := "passthrough", passthrough_convert_dv_to_p8 := some false }
    overrideNeeded := true
    useHdrTagsXml := false
    hdrTagsXmlPath := none }

/-- C6 as stated is false: in this Profile-5 scenario the safety override
fires (resolved policy is pure passthrough), yet the muxed output file
keeps the encode-labelled name generated from the original request, which
differs from the name the overridden (passthrough) policy would
generate. -/
theorem c6_counterexample :
    configure_automated_run c6streams "/in/Movie (2008).mkv" "/out" c6profile
      "nvenc" (fun _ => false) = .ok c6cfg ∧
    run_full_conversion "/in/Movie (2008).mkv" "/out" c6cfg "base" false true
      = .ok c6out ∧
    c6out.overrideNeeded = true ∧
    c6out.cfgResolved.video_policy = "passthrough" ∧
    Op.mkvmergeMux (pathJoin "/out" c6cfg.final_filename)
      "/in/Movie (2008).mkv" "0" true none [] [] ∈ c6out.ops ∧
    generate_plex_friendly_name "/in/Movie (2008).mkv" c6out.cfgResolved
      ≠ c6cfg.final_filename := by
  refine ⟨rfl, rfl, rfl, rfl, by decide, by decide⟩

/-- C6 (amended): the Profile-5 override is not propagated to naming.
`final_filename` is fixed before the run, the override leaves it
untouched, and the mux operation always writes to
`output_dir/final_filename` of the pre-run config, whatever the resolved
policy is. -/
theorem c6_filename_not_regenerated (sf od fb : String) (config : Config)
    (oe hdrOk : Bool) (out : RunOutput)
    (hrun : run_full_conversion sf od config fb oe hdrOk = .ok out) :
    out.cfgResolved.final_filename = config.final_filename ∧
    ∀ op ∈ out.ops, op.isMux = true →
      ∃ vi ms pm gt af sfl,
        op = Op.mkvmergeMux (pathJoin od config.final_filename) vi ms pm gt af sfl := by
  have hfields := (profile5SanityCheck_fields config).2.2.2.2.2.2.1
  cases oe
  · cases hplan : videoPathPlan sf od (sanitize_filename fb)
        (profile5SanityCheck config).1 with
    | error e => simp [run_full_conversion, hplan] at hrun
    | ok tup =>
      have hnomux := videoPathPlan_no_mux sf od (sanitize_filename fb)
        (profile5SanityCheck config).1 tup hplan
      obtain ⟨videoOps, vi, ms, uh⟩ := tup
      simp [run_full_conversion, hplan] at hrun
      obtain rfl := hrun.symm
      refine ⟨hfields, ?_⟩
      intro op hop hmux
      simp only [List.mem_append, List.mem_map, List.mem_cons,
        List.not_mem_nil, or_false] at hop
      rcases hop with ⟨s, -, rfl⟩ | ⟨s, -, rfl⟩ | hop | rfl
      · exact absurd hmux (by simp [Op.isMux])
      · exact absurd hmux (by simp [Op.isMux])
      · exact absurd hmux (by simp [hnomux op hop])
      · exact ⟨_, _, _, _, _, _, rfl⟩
  · simp [run_full_conversion] at hrun
    obtain rfl := hrun.symm
    exact ⟨rfl, by simp⟩

/-- Witness for `c6_filename_not_regenerated` at the concrete C6
scenario. -/
theorem c6_filename_not_regenerated_witness :
    c6out.cfgResolved.final_filename = c6cfg.final_filename :=
  (c6_filename_not_regenerated "/in/Movie (2008).mkv" "/out" "base" c6cfg
    false true c6out rfl).1

/-- Temp-file bookkeeping of `PassthroughStrategy.process`: declared temp
files and operation file references coincide (modulo the source file). -/
theorem passthrough_temp_spec (c : Config) (sf od fb : String)
    (out : StrategyOutput)
    (hrun : PassthroughStrategy.process c sf od fb = .ok out) :
    (∀ p ∈ out.temp_files, ∃ op ∈ out.ops, p ∈ op.files) ∧
    (∀ op ∈ out.ops, ∀ p ∈ op.files, p = sf ∨ p ∈ out.temp_files) := by
  rcases hv : c.video_stream with _ | vs
  · simp [PassthroughStrategy.process, hv] at hrun
  · simp only [PassthroughStrategy.process, hv] at hrun
    repeat' split at hrun
    all_goals try simp only [Except.ok.injEq] at hrun
    all_goals first
      | obtain rfl := hrun
      | obtain rfl := hrun.symm
    all_goals refine ⟨?_, ?_⟩ <;> simp [Op.files]

/-- Temp-file bookkeeping of `EncodeStrategy.process`. -/
theorem encode_temp_spec (c : Config) (sf od fb : String)
    (out : StrategyOutput)
    (hrun : EncodeStrategy.process c sf od fb = .ok out) :
    (∀ p ∈ out.temp_files, ∃ op ∈ out.ops, p ∈ op.files) ∧
    (∀ op ∈ out.ops, ∀ p ∈ op.files, p = sf ∨ p ∈ out.temp_files) := by
  rcases hv : c.video_stream with _ | vs
  · simp [EncodeStrategy.process, hv] at hrun
  · simp only [EncodeStrategy.process, hv] at hrun
    repeat' split at hrun
    all_goals try simp only [Except.ok.injEq] at hrun
    all_goals first
      | obtain rfl := hrun
      | obtain rfl := hrun.symm
    all_goals refine ⟨?_, ?_⟩ <;> simp [Op.files]

/-- C9: for both strategy classes, the recorded `self.temp_files` list and
the files referenced by the strategy's operations round-trip: every
declared temp path is referenced by some operation, and every file an
operation touches is either the source file or a declared temp path. -/
theorem c9_temp_files_roundtrip (c : Config) (sf od fb : String) :
    (∀ out, PassthroughStrategy.process c sf od fb = .ok out →
      (∀ p ∈ out.temp_files, ∃ op ∈ out.ops, p ∈ op.files) ∧
      (∀ op ∈ out.ops, ∀ p ∈ op.files, p = sf ∨ p ∈ out.temp_files)) ∧
    (∀ out, EncodeStrategy.process c sf od fb = .ok out →
      (∀ p ∈ out.temp_files, ∃ op ∈ out.ops, p ∈ op.files) ∧
      (∀ op ∈ out.ops, ∀ p ∈ op.files, p = sf ∨ p ∈ out.temp_files)) :=
  ⟨fun out hrun => passthrough_temp_spec c sf od fb out hrun,
   fun out hrun => encode_temp_spec c sf od fb out hrun⟩

/-- Witness for `c9_temp_files_roundtrip` at the concrete HDR10+/DV
Profile 7 encode input `c5cfg`. -/
theorem c9_temp_files_roundtrip_witness :
    ∃ out, EncodeStrategy.process c5cfg "/in/s.mkv" "/out" "base" = .ok out ∧
      ∀ p ∈ out.temp_files, ∃ op ∈ out.ops, p ∈ op.files := by
  refine ⟨{
    ops := [Op.mkvextractTrack "/in/s.mkv" 0 "/out/base_temp_video_raw.hevc",
      Op.ffmpegEncodeRaw "/out/base_temp_video_raw.hevc" none
        ["-c:v", "hevc_nvenc", "-preset", "", "-cq", "", "-pix_fmt", "p010le"]
        "/out/base_temp_video_converted.hevc",
      Op.doviExtractRpu "/out/base_temp_video_raw.hevc"
        "/out/base_temp_RPU_original.bin",
      Op.doviEditor "/out/base_temp_RPU_original.bin" "/out/base_temp_editor.json"
        "/out/base_temp_RPU_P8_converted.bin",
      Op.doviInjectRpu "/out/base_temp_video_converted.hevc"
        "/out/base_temp_RPU_P8_converted.bin" "/out/base_temp_video_final_dv.hevc",
      Op.hdr10plusExtract "/out/base_temp_video_raw.hevc"
        "/out/base_temp_hdr10plus.json",
      Op.hdr10plusInject "/out/base_temp_video_final_dv.hevc"
        "/out/base_temp_hdr10plus.json" "/out/base_temp_video_with_hdr10plus.hevc"]
    temp_files := ["/out/base_temp_video_raw.hevc",
      "/out/base_temp_video_converted.hevc", "/out/base_temp_RPU_original.bin",
      "/out/base_temp_video_final_dv.hevc", "/out/base_temp_editor.json",
      "/out/base_temp_RPU_P8_converted.bin", "/out/base_temp_hdr10plus.json",
      "/out/base_temp_video_with_hdr10plus.hevc"]
    result := {
      video_input := "/out/base_temp_video_with_hdr10plus.hevc"
      map_str := "0"
      final_mux_step := "8"
      input_type := "raw_hevc" } }, rfl, ?_⟩
  exact ((c9_temp_files_roundtrip c5cfg "/in/s.mkv" "/out" "base").2 _ rfl).1

end MkvFactory
